import Mathlib

/-!
Verification of the u-blox ModemManager plugin helpers
(`mm-modem-helpers-ublox.c`) and of the MBIM broadband-modem plugin
(`mm-broadband-modem-mbim.c`) against their natural-language description.

The C code is shallowly embedded: strings are Lean `String`s, the GLib
regexes used by the parsers are modelled by executable matchers that
reproduce the leftmost-match search of `g_regex_match_full` for the
concrete patterns appearing in the source, `guint` values are `Nat`s with
an explicit `G_MAXUINT` bound where the code checks it, and a C function
that reports errors through a `GError **` out parameter is modelled as a
function returning the triple of its `gboolean` return value, the value
stored into `*error` (if any), and the values stored into its out
parameters (if written).  Helper routines that live in
`mm-modem-helpers.c` (outside the provided sources) are modelled
explicitly and marked `Modelled from the spec:` in their doc comments.
-/

/-! ### Basic GLib / ModemManager data model -/

/-- Error codes of the `MM_CORE_ERROR` domain used by this module. -/
inductive MMCoreError where
  | FAILED
  | UNSUPPORTED
  | INVALID_ARGS
deriving DecidableEq

/-- A `GError` of the `MM_CORE_ERROR` domain: code plus message. -/
structure GError where
  code : MMCoreError
  message : String
deriving DecidableEq

/-- Power states of `MMModemPowerState` (only the constructors used here). -/
inductive MMModemPowerState where
  | MM_MODEM_POWER_STATE_UNKNOWN
  | MM_MODEM_POWER_STATE_OFF
  | MM_MODEM_POWER_STATE_LOW
  | MM_MODEM_POWER_STATE_ON
deriving DecidableEq

/-- Mode bitmask constant `MM_MODEM_MODE_NONE`. -/
def MM_MODEM_MODE_NONE : Nat := 0

/-- Mode bitmask constant `MM_MODEM_MODE_2G` (bit 1). -/
def MM_MODEM_MODE_2G : Nat := 2

/-- Mode bitmask constant `MM_MODEM_MODE_3G` (bit 2). -/
def MM_MODEM_MODE_3G : Nat := 4

/-- Mode bitmask constant `MM_MODEM_MODE_4G` (bit 3). -/
def MM_MODEM_MODE_4G : Nat := 8

/-- Largest value of a C `guint` (32-bit unsigned). -/
def G_MAXUINT : Nat := 4294967295

/-- An `MMModemModeCombination`: an allowed mode mask plus a preferred mask. -/
structure MMModemModeCombination where
  allowed : Nat
  preferred : Nat
deriving DecidableEq

-- Equalities between `Except` values are made decidable so that concrete
-- runs of the embedded parsers can be checked by `decide`.
deriving instance DecidableEq for Except

/-! ### Character and digit utilities shared by the regex models -/

/-- Number denoted by a list of decimal digit characters (most significant
first), as captured by a `(\d+)` regex group. -/
def digitsToNat (ds : List Char) : Nat :=
  ds.foldl (fun a c => 10 * a + (c.toNat - 48)) 0

/-- Match a literal character sequence at the head of the input, returning
the rest of the input on success. -/
def dropLit : List Char → List Char → Option (List Char)
  | [], cs => some cs
  | l :: ls, c :: cs => if c = l then dropLit ls cs else none
  | _ :: _, [] => none

/-- Match a single literal character at the head of the input. -/
def dropChar (x : Char) : List Char → Option (List Char)
  | c :: cs => if c = x then some cs else none
  | [] => none

/-- Match a `(\d+)` group at the head of the input: take the maximal run of
decimal digits (at least one), returning its value and the rest.  Because
every context following `(\d+)` in the patterns of this module starts with a
non-digit, the maximal run coincides with the backtracking semantics of the
greedy `\d+`. -/
def matchDigits (cs : List Char) : Option (Nat × List Char) :=
  match cs.span Char.isDigit with
  | (ds, rest) => if ds.isEmpty then none else some (digitsToNat ds, rest)

/-- Match a `([^,]*)` group at the head of the input: the maximal run of
characters other than a comma, returning the run and the rest. -/
def matchNonComma (cs : List Char) : List Char × List Char :=
  cs.span (fun c => c ≠ ',')

/-- Unanchored leftmost search of `g_regex_match_full`: try the pattern
matcher at every position of the input from the left, returning the first
success. -/
def regexSearch {α : Type} (matchAt : List Char → Option α) : List Char → Option α
  | [] => matchAt []
  | c :: cs =>
    match matchAt (c :: cs) with
    | some r => some r
    | none => regexSearch matchAt cs

/-- Modelled from the spec: `mm_get_uint_from_match_info`
(`mm-modem-helpers.c`, not among the provided sources) converts the digits
captured by a match group to a `guint`, failing when the value does not fit
in a `guint`. -/
def mm_get_uint_from_match_info (n : Nat) : Option Nat :=
  if n ≤ G_MAXUINT then some n else none

/-- Character test of `isspace` from the C library. -/
def isSpaceChar (c : Char) : Bool :=
  c = ' ' ∨ c = '\t' ∨ c = '\n' ∨ c = '\x0b' ∨ c = '\x0c' ∨ c = '\r'

/-- Modelled from the spec: `g_strstrip` removes leading and trailing
whitespace from a string. -/
def g_strstrip (s : List Char) : List Char :=
  ((s.dropWhile isSpaceChar).reverse.dropWhile isSpaceChar).reverse

/-- Modelled from the spec: `mm_get_string_unquoted_from_match_info`
(`mm-modem-helpers.c`, not among the provided sources) fetches a match
group; if the text is surrounded by double quotes the quotes are replaced by
blanks and the result is stripped; an empty result is reported as `NULL`
(here `none`). -/
def mm_get_string_unquoted_from_match_info (g : List Char) : Option String :=
  if 2 ≤ g.length ∧ g.head? = some '"' ∧ g.getLast? = some '"' then
    match g_strstrip ((g.drop 1).dropLast) with
    | [] => none
    | s => some (String.mk s)
  else
    match g with
    | [] => none
    | s => some (String.mk s)

/-! ### +UPINCNT response parser (`mm_ublox_parse_upincnt_response`) -/

/-- Matcher for the pattern
`\+UPINCNT: (\d+),(\d+),(\d+),(\d+)(?:\r\n)?` at a fixed position,
returning the four captured numbers.  The optional trailing `\r\n` does not
constrain acceptance. -/
def matchUpincntAt (cs : List Char) : Option (Nat × Nat × Nat × Nat) := do
  let cs ← dropLit (String.data ("+UPINCNT: ")) cs
  let (p1, cs) ← matchDigits cs
  let cs ← dropChar ',' cs
  let (p2, cs) ← matchDigits cs
  let cs ← dropChar ',' cs
  let (p3, cs) ← matchDigits cs
  let cs ← dropChar ',' cs
  let (p4, _) ← matchDigits cs
  return (p1, p2, p3, p4)

/-- Embedding of `mm_ublox_parse_upincnt_response`.  Result: the `gboolean`
return value, the `GError` propagated to `*error` (if any), and the values
stored into the four out parameters (if written).  The source initialises
its local `success` flag to `TRUE`, so when the regex does not match and no
inner error occurred the function falls through to the success epilogue
with the zero-initialised locals: the `!success` branch that would set the
`MM_CORE_ERROR_FAILED` "Couldnt parse +UPINCNT response" error is
unreachable. -/
def mm_ublox_parse_upincnt_response (response : String) :
    Bool × Option GError × Option (Nat × Nat × Nat × Nat) :=
  match regexSearch matchUpincntAt response.data with
  | some (d1, d2, d3, d4) =>
    match mm_get_uint_from_match_info d1 with
    | none => (false, some ⟨MMCoreError.UNSUPPORTED, "Could not parse PIN attempts"⟩, none)
    | some p1 =>
      match mm_get_uint_from_match_info d2 with
      | none => (false, some ⟨MMCoreError.UNSUPPORTED, "Could not parse PIN2 attempts"⟩, none)
      | some p2 =>
        match mm_get_uint_from_match_info d3 with
        | none => (false, some ⟨MMCoreError.UNSUPPORTED, "Could not parse PUK attempts"⟩, none)
        | some p3 =>
          match mm_get_uint_from_match_info d4 with
          | none => (false, some ⟨MMCoreError.UNSUPPORTED, "Could not parse PUK2 attempts"⟩, none)
          | some p4 => (true, none, some (p1, p2, p3, p4))
  | none => (true, none, some (0, 0, 0, 0))

/-! ### +CFUN response parser (`mm_ublox_parse_cfun_response`) -/

/-- Matcher for the pattern `\+CFUN: (\d+)(?:,(?:\d+))?(?:\r\n)?` at a fixed
position; only the first group is captured, the optional second number and
trailing `\r\n` do not constrain acceptance. -/
def matchCfunAt (cs : List Char) : Option Nat := do
  let cs ← dropLit (String.data ("+CFUN: ")) cs
  let (v, _) ← matchDigits cs
  return v

/-- Embedding of `mm_ublox_parse_cfun_response`.  Result: the `gboolean`
return value, the `GError` propagated to `*error` (if any), and the state
stored into `*out_state` (if written).  When the computed state is still
`MM_MODEM_POWER_STATE_UNKNOWN` (no regex match, or a value outside
{0,1,4,19}) the source assigns a fresh `MM_CORE_ERROR_FAILED` error to the
local `inner_error` and returns `FALSE` without ever propagating it to
`*error`, so the caller sees `FALSE` with `*error` untouched. -/
def mm_ublox_parse_cfun_response (response : String) :
    Bool × Option GError × Option MMModemPowerState :=
  match regexSearch matchCfunAt response.data with
  | some d =>
    match mm_get_uint_from_match_info d with
    | none => (false, some ⟨MMCoreError.FAILED, "Could not read power state value"⟩, none)
    | some value =>
      if value = 1 then
        (true, none, some MMModemPowerState.MM_MODEM_POWER_STATE_ON)
      else if value = 0 ∨ value = 4 ∨ value = 19 then
        (true, none, some MMModemPowerState.MM_MODEM_POWER_STATE_LOW)
      else
        (false, none, none)
  | none => (false, none, none)

/-! ### URAT=? response parser (`mm_ublox_parse_urat_test_response`) -/

/-- Modelled from the spec: `mm_strip_tag` (`mm-modem-helpers.h`, not among
the provided sources) drops the given tag when the string starts with it and
then skips any following whitespace. -/
def mm_strip_tag (s tag : List Char) : List Char :=
  (if tag.isPrefixOf s then s.drop tag.length else s).dropWhile isSpaceChar

/-- Modelled from the spec: worker of `mm_split_string_groups`, iterating
over the string.  Each step skips blanks; a group starting with an opening
parenthesis extends to the matching closing parenthesis (or to the end when
none exists), otherwise to the next comma; empty items are discarded.  The
fuel argument bounds the number of groups and always suffices, since every
continued step consumes at least one character. -/
def splitGroupsGo : Nat → List Char → List (List Char)
  | 0, _ => []
  | fuel + 1, s =>
    match s.dropWhile (fun c => c = ' ') with
    | [] => []
    | '(' :: rest =>
      match rest.dropWhile (fun c => c ≠ ')') with
      | [] => if rest.isEmpty then [] else [rest]
      | _ :: afterParen =>
        match (afterParen.dropWhile (fun c => c ≠ ',')) with
        | [] =>
          if (rest.takeWhile (fun c => c ≠ ')')).isEmpty then []
          else [rest.takeWhile (fun c => c ≠ ')')]
        | _ :: t =>
          if (rest.takeWhile (fun c => c ≠ ')')).isEmpty then splitGroupsGo fuel t
          else rest.takeWhile (fun c => c ≠ ')') :: splitGroupsGo fuel t
    | other =>
      match other.dropWhile (fun c => c ≠ ',') with
      | [] =>
        if (other.takeWhile (fun c => c ≠ ',')).isEmpty then []
        else [other.takeWhile (fun c => c ≠ ',')]
      | _ :: t =>
        if (other.takeWhile (fun c => c ≠ ',')).isEmpty then splitGroupsGo fuel t
        else other.takeWhile (fun c => c ≠ ',') :: splitGroupsGo fuel t

/-- Modelled from the spec: `mm_split_string_groups`
(`mm-modem-helpers.c`, not among the provided sources) splits a response
into comma-separated groups, a group optionally written between
parentheses, as in the example `+URAT: (0-6),(0,2,3)` quoted in the
source. -/
def mm_split_string_groups (s : List Char) : List (List Char) :=
  splitGroupsGo (s.length + 1) s

/-- Modelled from the spec: `mm_get_uint_from_str`
(`mm-modem-helpers.c`, not among the provided sources) accepts a non-empty
all-digit string whose value fits in a `guint`. -/
def mm_get_uint_from_str (s : List Char) : Option Nat :=
  if s ≠ [] ∧ s.all Char.isDigit ∧ digitsToNat s ≤ G_MAXUINT then
    some (digitsToNat s)
  else none

/-- Modelled from the spec: one comma-separated item of a
`mm_parse_uint_list` input, either a single number or a range
`first-last` expanded to all values in between. -/
def parseUintListItem (item : List Char) : Except GError (List Nat) :=
  if (g_strstrip item).contains '-' then
    match mm_get_uint_from_str ((g_strstrip item).takeWhile (fun c => c ≠ '-')),
          mm_get_uint_from_str (((g_strstrip item).dropWhile (fun c => c ≠ '-')).drop 1) with
    | some first, some last =>
      if last < first then
        .error ⟨MMCoreError.FAILED, "range last smaller than first"⟩
      else .ok (List.range' first (last - first + 1))
    | none, _ => .error ⟨MMCoreError.FAILED, "could not parse first number in range"⟩
    | _, none => .error ⟨MMCoreError.FAILED, "could not parse last number in range"⟩
  else
    match mm_get_uint_from_str (g_strstrip item) with
    | some v => .ok [v]
    | none => .error ⟨MMCoreError.FAILED, "could not parse number"⟩

/-- Modelled from the spec: concatenation of the parsed items of a
`mm_parse_uint_list` input. -/
def parseUintListItems : List (List Char) → Except GError (List Nat)
  | [] => .ok []
  | it :: rest => do
    let v ← parseUintListItem it
    let vs ← parseUintListItems rest
    return v ++ vs

/-- Modelled from the spec: `mm_parse_uint_list`
(`mm-modem-helpers.c`, not among the provided sources) returns `NULL`
(here `none`) for a `NULL` or empty input and otherwise parses a
comma-separated list of numbers and ranges, failing on malformed items. -/
def mm_parse_uint_list : Option (List Char) → Except GError (Option (List Nat))
  | none => .ok none
  | some [] => .ok none
  | some s => do
    let vs ← parseUintListItems (s.splitOn ',')
    return some vs

/-- Worker for `mm_count_bits_set`; the fuel argument dominates the number
of binary digits, keeping the recursion structural. -/
def countBitsGo : Nat → Nat → Nat
  | 0, _ => 0
  | _ + 1, 0 => 0
  | fuel + 1, n => n % 2 + countBitsGo fuel (n / 2)

/-- Embedding of `mm_count_bits_set`: number of bits set in a mask. -/
def mm_count_bits_set (n : Nat) : Nat := countBitsGo n n

/-- Embedding of the `ublox_combinations` table: the index of the array is
the u-blox-specific AcT value. -/
def ublox_combinations : List Nat :=
  [ MM_MODEM_MODE_2G,
    MM_MODEM_MODE_2G ||| MM_MODEM_MODE_3G,
    MM_MODEM_MODE_3G,
    MM_MODEM_MODE_4G,
    MM_MODEM_MODE_2G ||| MM_MODEM_MODE_3G ||| MM_MODEM_MODE_4G,
    MM_MODEM_MODE_2G ||| MM_MODEM_MODE_4G,
    MM_MODEM_MODE_3G ||| MM_MODEM_MODE_4G ]

/-- Inner loop of `mm_ublox_parse_urat_test_response` over the preferred
values for one selected value: out-of-range values, values that are not a
single AcT and values not intersecting the allowed mask are skipped
(`mm_warn` + `continue` in the source), the others yield a combination. -/
def uratPreferredCombos (allowed : Nat) (prefs : List Nat) :
    List MMModemModeCombination :=
  prefs.filterMap (fun preferredValue =>
    if 7 ≤ preferredValue then none
    else if mm_count_bits_set (List.getD ublox_combinations preferredValue 0) ≠ 1 then none
    else if allowed &&& (List.getD ublox_combinations preferredValue 0) = 0 then none
    else some ⟨allowed, List.getD ublox_combinations preferredValue 0⟩)

/-- Body of the outer loop of `mm_ublox_parse_urat_test_response` for one
selected value: out-of-range values contribute nothing, otherwise the
combination without preferred mode is emitted first, followed — when the
allowed mask has more than one bit and a preferred list was given — by the
preferred combinations. -/
def uratCombosForSelected (preferred : Option (List Nat)) (selectedValue : Nat) :
    List MMModemModeCombination :=
  if 7 ≤ selectedValue then []
  else if mm_count_bits_set (List.getD ublox_combinations selectedValue 0) = 1 then
    [⟨List.getD ublox_combinations selectedValue 0, MM_MODEM_MODE_NONE⟩]
  else
    match preferred with
    | none => [⟨List.getD ublox_combinations selectedValue 0, MM_MODEM_MODE_NONE⟩]
    | some prefs =>
      ⟨List.getD ublox_combinations selectedValue 0, MM_MODEM_MODE_NONE⟩ ::
        uratPreferredCombos (List.getD ublox_combinations selectedValue 0) prefs

/-- Array of combinations built by `mm_ublox_parse_urat_test_response` from
the parsed selected and preferred value lists. -/
def buildUratCombinations (selected : List Nat) (preferred : Option (List Nat)) :
    List MMModemModeCombination :=
  selected.flatMap (uratCombosForSelected preferred)

/-- Groups of a `+URAT=?` response after tag stripping, shared by the
parser and by `uratSelectedValues`. -/
def uratSplitGroups (response : String) : List (List Char) :=
  mm_split_string_groups (mm_strip_tag response.data (String.data ("+URAT:")))

/-- Embedding of `mm_ublox_parse_urat_test_response`.  This function
propagates every inner error to `*error` before returning `NULL`, so its
outcome is modelled as an `Except`. -/
def mm_ublox_parse_urat_test_response (response : String) :
    Except GError (List MMModemModeCombination) :=
  if (uratSplitGroups response).length > 2 ∨ (uratSplitGroups response).length < 1 then
    .error ⟨MMCoreError.FAILED, "Unexpected number of groups in +URAT=? response"⟩
  else
    match mm_parse_uint_list ((uratSplitGroups response).get? 0) with
    | .error e => .error e
    | .ok none => .error ⟨MMCoreError.FAILED, "No selected RAT values given in +URAT=? response"⟩
    | .ok (some selected) =>
      match mm_parse_uint_list ((uratSplitGroups response).get? 1) with
      | .error e => .error e
      | .ok preferred =>
        if (buildUratCombinations selected preferred).length = 0 then
          .error ⟨MMCoreError.FAILED, "No combinations built from +URAT=? response"⟩
        else .ok (buildUratCombinations selected preferred)

/-- Selected AcT values parsed from the first group of a `+URAT=?`
response; the empty list when that group is absent or malformed. -/
def uratSelectedValues (response : String) : List Nat :=
  match mm_parse_uint_list ((uratSplitGroups response).get? 0) with
  | .ok (some selected) => selected
  | _ => []

/-! ### Mode to apply when ANY (`mm_ublox_get_modem_mode_any`) -/

/-- Loop of `mm_ublox_get_modem_mode_any`: combinations whose preferred
mode is `MM_MODEM_MODE_NONE` are skipped, and among the rest the allowed
mask with the most bits set wins. -/
def modemModeAnyGo : List MMModemModeCombination → Nat → Nat → Nat
  | [], any, _ => any
  | c :: rest, any, anyBits =>
    if c.preferred = MM_MODEM_MODE_NONE then modemModeAnyGo rest any anyBits
    else if anyBits < mm_count_bits_set c.allowed then
      modemModeAnyGo rest c.allowed (mm_count_bits_set c.allowed)
    else modemModeAnyGo rest any anyBits

/-- Embedding of `mm_ublox_get_modem_mode_any`.  The source ends with
`g_assert (any != MM_MODEM_MODE_NONE)`; the embedding returns the computed
value so that the assertion can be stated about it. -/
def mm_ublox_get_modem_mode_any (combinations : List MMModemModeCombination) : Nat :=
  modemModeAnyGo combinations MM_MODEM_MODE_NONE 0

/-! ### URAT? response parser (`mm_ublox_parse_urat_read_response`) -/

/-- Matcher for the pattern `\+URAT: (\d+)(?:,(\d+))?(?:\r\n)?` at a fixed
position: the mandatory selected group and the optional preferred group. -/
def matchUratReadAt (cs : List Char) : Option (Nat × Option Nat) := do
  let cs ← dropLit (String.data ("+URAT: ")) cs
  let (a, cs) ← matchDigits cs
  match cs with
  | ',' :: cs2 =>
    match matchDigits cs2 with
    | some (p, _) => return (a, some p)
    | none => return (a, none)
  | _ => return (a, none)

/-- Body of `mm_ublox_parse_urat_read_response` applied to the captured
groups.  The selected value is mandatory; consistency checks on it and on
the optional preferred value propagate `MM_CORE_ERROR_FAILED` errors.  When
`mm_get_uint_from_match_info` rejects the preferred group (value too large
for a `guint`) the `if` around the preferred handling is simply skipped, so
the group is treated as absent.  On the no-match path the source assigns a
fresh error to the local `inner_error` and returns `FALSE` without
propagating it, so `*error` stays untouched; the success path always has a
non-`NONE` allowed mask, making the final `allowed == MM_MODEM_MODE_NONE`
test reachable only without a match. -/
def uratReadProcess : Option (Nat × Option Nat) → Bool × Option GError × Option (Nat × Nat)
  | none => (false, none, none)
  | some (d, pOpt) =>
    match mm_get_uint_from_match_info d with
    | none => (false, some ⟨MMCoreError.FAILED, "Could not read AcT selected value"⟩, none)
    | some value =>
      if 7 ≤ value then
        (false, some ⟨MMCoreError.FAILED, "Unexpected AcT selected value"⟩, none)
      else
        match pOpt with
        | none => (true, none, some (List.getD ublox_combinations value 0, MM_MODEM_MODE_NONE))
        | some dp =>
          match mm_get_uint_from_match_info dp with
          | none => (true, none, some (List.getD ublox_combinations value 0, MM_MODEM_MODE_NONE))
          | some pv =>
            if 7 ≤ pv then
              (false, some ⟨MMCoreError.FAILED, "Unexpected AcT preferred value"⟩, none)
            else if mm_count_bits_set (List.getD ublox_combinations pv 0) ≠ 1 then
              (false, some ⟨MMCoreError.FAILED, "AcT preferred value should be a single AcT"⟩, none)
            else if (List.getD ublox_combinations value 0) &&& (List.getD ublox_combinations pv 0) = 0 then
              (false, some ⟨MMCoreError.FAILED, "AcT preferred value not a subset of the allowed value"⟩, none)
            else
              (true, none, some (List.getD ublox_combinations value 0, List.getD ublox_combinations pv 0))

/-- Embedding of `mm_ublox_parse_urat_read_response`.  Result: the
`gboolean` return value, the `GError` propagated to `*error` (if any), and
the pair stored into `*out_allowed` and `*out_preferred` (if written). -/
def mm_ublox_parse_urat_read_response (response : String) :
    Bool × Option GError × Option (Nat × Nat) :=
  uratReadProcess (regexSearch matchUratReadAt response.data)

/-- Success condition of `mm_ublox_parse_urat_read_response` on a matched
response, as the amended claim states it: the selected value must be in
range, and a present preferred value must either not fit in a `guint` (it
is then ignored) or be in range, name a single-AcT mask, and intersect the
allowed mask. -/
def uratReadOk (a : Nat) (pOpt : Option Nat) : Prop :=
  a < 7 ∧
    (match pOpt with
     | none => True
     | some p =>
       G_MAXUINT < p ∨
         (p < 7 ∧ mm_count_bits_set (List.getD ublox_combinations p 0) = 1 ∧
          (List.getD ublox_combinations a 0) &&& (List.getD ublox_combinations p 0) ≠ 0))

/-- Preferred mask reported by `mm_ublox_parse_urat_read_response` on
success: the table entry of the preferred value when present and
`guint`-representable, `MM_MODEM_MODE_NONE` otherwise. -/
def uratReadPreferred (pOpt : Option Nat) : Nat :=
  match pOpt with
  | none => MM_MODEM_MODE_NONE
  | some p => if G_MAXUINT < p then MM_MODEM_MODE_NONE else List.getD ublox_combinations p 0

/-! ### URAT=X command builder (`mm_ublox_build_urat_set_command`) -/

/-- Embedding of `append_rat_value`: index of the first table entry equal
to the given mode, `none` when no entry matches (the source then sets a
`MM_CORE_ERROR_FAILED` error). -/
def append_rat_value (mode : Nat) : Option Nat :=
  (List.range 7).find? (fun i => List.getD ublox_combinations i 0 == mode)

/-- Embedding of `mm_ublox_build_urat_set_command`: builds `+URAT=i` or
`+URAT=i,j` from the table indices of the allowed and preferred masks, the
preferred part being appended only when it is not `MM_MODEM_MODE_NONE`. -/
def mm_ublox_build_urat_set_command (allowed preferred : Nat) : Except GError String :=
  match append_rat_value allowed with
  | none => .error ⟨MMCoreError.FAILED, "No AcT value matches requested mode"⟩
  | some i =>
    if preferred ≠ MM_MODEM_MODE_NONE then
      match append_rat_value preferred with
      | none => .error ⟨MMCoreError.FAILED, "No AcT value matches requested mode"⟩
      | some j => .ok ("+URAT=" ++ Nat.repr i ++ "," ++ Nat.repr j)
    else .ok ("+URAT=" ++ Nat.repr i)

/-! ### Supported mode filtering (`mm_ublox_filter_supported_modes`) -/

/-- Embedding of `supported_modes_per_model`: the mask of modes a model
supports.  The operation `all &= ~BIT` of the source, applied to a mask in
which `BIT` is known to be set, is expressed as `all ^^^ BIT`. -/
def supported_modes_per_model : Option String → Nat
  | none => MM_MODEM_MODE_2G ||| MM_MODEM_MODE_3G ||| MM_MODEM_MODE_4G
  | some m =>
    if m = "TOBY-L201" ∨ m = "TOBY-L220" ∨ m = "MPCI-L201" then
      (MM_MODEM_MODE_2G ||| MM_MODEM_MODE_3G ||| MM_MODEM_MODE_4G) ^^^ MM_MODEM_MODE_2G
    else if (String.data ("LISA-U")).isPrefixOf m.data ∨
        (String.data ("SARA-U")).isPrefixOf m.data then
      if m = "SARA-U270-53S" ∨ m = "SARA-U280" then
        ((MM_MODEM_MODE_2G ||| MM_MODEM_MODE_3G ||| MM_MODEM_MODE_4G) ^^^ MM_MODEM_MODE_4G)
          ^^^ MM_MODEM_MODE_2G
      else (MM_MODEM_MODE_2G ||| MM_MODEM_MODE_3G ||| MM_MODEM_MODE_4G) ^^^ MM_MODEM_MODE_4G
    else MM_MODEM_MODE_2G ||| MM_MODEM_MODE_3G ||| MM_MODEM_MODE_4G

/-- Model table exactly as claim C6 states it: 2G is removed for TOBY-L201,
TOBY-L220 and MPCI-L201; 4G is removed for every model whose name starts
with LISA-U or SARA-U; 2G is additionally removed for SARA-U270-53S and
SARA-U280. -/
def claimed_model_mask (m : String) : Nat :=
  if m = "TOBY-L201" ∨ m = "TOBY-L220" ∨ m = "MPCI-L201" then
    MM_MODEM_MODE_3G ||| MM_MODEM_MODE_4G
  else if (String.data ("LISA-U")).isPrefixOf m.data ∨
      (String.data ("SARA-U")).isPrefixOf m.data then
    if m = "SARA-U270-53S" ∨ m = "SARA-U280" then MM_MODEM_MODE_3G
    else MM_MODEM_MODE_2G ||| MM_MODEM_MODE_3G
  else MM_MODEM_MODE_2G ||| MM_MODEM_MODE_3G ||| MM_MODEM_MODE_4G

/-- Modelled from the spec: compatibility test of
`mm_filter_supported_modes` (`mm-modem-helpers.c`, not among the provided
sources): a combination is kept when its allowed and preferred masks are
both contained in the device-supported mask. -/
def modeComboSupported (mask : Nat) (c : MMModemModeCombination) : Bool :=
  (c.allowed &&& mask == c.allowed) && (c.preferred &&& mask == c.preferred)

/-- Modelled from the spec: `mm_filter_supported_modes`
(`mm-modem-helpers.c`, not among the provided sources) keeps only the
combinations compatible with the single supported combination given. -/
def mm_filter_supported_modes (mask : Nat) (combinations : List MMModemModeCombination) :
    List MMModemModeCombination :=
  combinations.filter (modeComboSupported mask)

/-- Embedding of `mm_ublox_filter_supported_modes`: the input array is
returned unchanged when no model is given or when the per-model mask equals
the unrestricted mask; otherwise the combinations are filtered, and an
empty filtering result yields a `MM_CORE_ERROR_FAILED` error. -/
def mm_ublox_filter_supported_modes (model : Option String)
    (combinations : List MMModemModeCombination) :
    Except GError (List MMModemModeCombination) :=
  match model with
  | none => .ok combinations
  | some m =>
    if supported_modes_per_model (some m) = supported_modes_per_model none then
      .ok combinations
    else if (mm_filter_supported_modes (supported_modes_per_model (some m))
        combinations).length = 0 then
      .error ⟨MMCoreError.FAILED, "No valid mode combinations built after filtering"⟩
    else .ok (mm_filter_supported_modes (supported_modes_per_model (some m)) combinations)

/-! ### UIPADDR=N response parser (`mm_ublox_parse_uipaddr_response`) -/

/-- Which of the six out pointers the caller of
`mm_ublox_parse_uipaddr_response` passed as non-`NULL`. -/
structure UipaddrPtrs where
  outCid : Bool
  outIfName : Bool
  outIpv4Address : Bool
  outIpv4Subnet : Bool
  outIpv6GlobalAddress : Bool
  outIpv6LinkLocalAddress : Bool
deriving DecidableEq

/-- Values stored by `mm_ublox_parse_uipaddr_response` into the caller
locations: the outer `Option` records whether the location was written at
all, the inner `Option String` distinguishes a parsed string from a `NULL`
pointer. -/
structure UipaddrOuts where
  cid : Option Nat
  ifName : Option (Option String)
  ipv4Address : Option (Option String)
  ipv4Subnet : Option (Option String)
  ipv6GlobalAddress : Option (Option String)
  ipv6LinkLocalAddress : Option (Option String)
deriving DecidableEq

/-- State of the caller locations when nothing has been written. -/
def uipaddrNoWrites : UipaddrOuts := ⟨none, none, none, none, none, none⟩

/-- Matcher for the pattern
`\+UIPADDR: (\d+),([^,]*),([^,]*),([^,]*),([^,]*),([^,]*)(?:
)?` at a
fixed position: the numeric CID followed by five comma-separated groups of
non-comma characters.  The last group being greedy, it also absorbs a
trailing carriage-return/newline. -/
def matchUipaddrAt (cs : List Char) :
    Option (Nat × List Char × List Char × List Char × List Char × List Char) := do
  let cs ← dropLit (String.data ("+UIPADDR: ")) cs
  let (cid, cs) ← matchDigits cs
  let cs ← dropChar ',' cs
  let (g2, cs) := matchNonComma cs
  let cs ← dropChar ',' cs
  let (g3, cs) := matchNonComma cs
  let cs ← dropChar ',' cs
  let (g4, cs) := matchNonComma cs
  let cs ← dropChar ',' cs
  let (g5, cs) := matchNonComma cs
  let cs ← dropChar ',' cs
  let (g6, _) := matchNonComma cs
  return (cid, g2, g3, g4, g5, g6)

/-- CID step of `mm_ublox_parse_uipaddr_response`.  In the source the CID
and the interface name are parsed only when their out pointers were given
and a parse failure there aborts with an error before anything is written;
the four address strings are optional and parsed (possibly to `NULL`) only
when their out pointers were given; all locations are written in one block
just before returning `TRUE`. -/
def uipaddrCidStep (ptrs : UipaddrPtrs) (cidDigits : Nat) : Except GError Nat :=
  if ptrs.outCid then
    match mm_get_uint_from_match_info cidDigits with
    | some v => .ok v
    | none => .error ⟨MMCoreError.FAILED, "Error parsing cid"⟩
  else .ok 0

/-- Interface-name step of `mm_ublox_parse_uipaddr_response`: the name is
parsed only when its out pointer was given, and a `NULL` parse result is an
error there. -/
def uipaddrIfNameStep (ptrs : UipaddrPtrs) (g2 : List Char) : Except GError (Option String) :=
  if ptrs.outIfName then
    match mm_get_string_unquoted_from_match_info g2 with
    | some s => .ok (some s)
    | none => .error ⟨MMCoreError.FAILED, "Error parsing interface name"⟩
  else .ok none

/-- Embedding of `mm_ublox_parse_uipaddr_response` proper. -/
def mm_ublox_parse_uipaddr_response (response : String) (ptrs : UipaddrPtrs) :
    Bool × Option GError × UipaddrOuts :=
  match regexSearch matchUipaddrAt response.data with
  | none =>
    (false, some ⟨MMCoreError.INVALID_ARGS, "Could not match +UIPADDR response"⟩,
      uipaddrNoWrites)
  | some (cidDigits, g2, g3, g4, g5, g6) =>
    match uipaddrCidStep ptrs cidDigits with
    | .error e => (false, some e, uipaddrNoWrites)
    | .ok cid =>
      match uipaddrIfNameStep ptrs g2 with
      | .error e => (false, some e, uipaddrNoWrites)
      | .ok ifName =>
        (true, none,
          { cid := if ptrs.outCid then some cid else none
            ifName := if ptrs.outIfName then some ifName else none
            ipv4Address :=
              if ptrs.outIpv4Address then
                some (mm_get_string_unquoted_from_match_info g3)
              else none
            ipv4Subnet :=
              if ptrs.outIpv4Subnet then
                some (mm_get_string_unquoted_from_match_info g4)
              else none
            ipv6GlobalAddress :=
              if ptrs.outIpv6GlobalAddress then
                some (mm_get_string_unquoted_from_match_info g5)
              else none
            ipv6LinkLocalAddress :=
              if ptrs.outIpv6LinkLocalAddress then
                some (mm_get_string_unquoted_from_match_info g6)
              else none })

/-! ### MBIM broadband modem: first initialization step -/

/-- Environment of one run of the MBIM modem initialization_started
operation: whether an MBIM port is available and whether it is already
open, the outcome of `mm_mbim_port_open` when it gets invoked (`none` for
success), and what the parent class initialization reports through
`initialization_started_finish` — a context pointer (modelled as an
`Option Nat`) and possibly an error. -/
structure MbimInitEnv where
  mbimPort : Option Bool
  openResult : Option GError
  parentCtx : Option Nat
  parentError : Option GError
deriving DecidableEq

/-- Embedding of `parent_initialization_started` composed with
`parent_initialization_started_ready`: the parent operation runs and its
finish function is called; a parent error is only logged and freed (it is
not treated as fatal), and the async result is completed successfully with
the parent context pointer, whatever it is. -/
def parent_initialization_started (env : MbimInitEnv) : Except GError (Option Nat) :=
  .ok env.parentCtx

/-- Embedding of `mbim_port_open_ready`: an open failure completes the
operation with the open error, a success continues with the parent
initialization. -/
def mbim_port_open_ready (env : MbimInitEnv) : Except GError (Option Nat) :=
  match env.openResult with
  | some e => .error e
  | none => parent_initialization_started env

/-- Embedding of `initialization_started` (composed with
`initialization_started_finish`, which propagates the error stored in the
async result or hands back the parent context pointer): no MBIM port means
a `MM_CORE_ERROR_FAILED` completion, an already-open port skips the open
step, otherwise the port is opened first. -/
def initialization_started (env : MbimInitEnv) : Except GError (Option Nat) :=
  match env.mbimPort with
  | none => .error ⟨MMCoreError.FAILED, "Cannot initialize: MBIM port went missing"⟩
  | some isOpen =>
    if isOpen then parent_initialization_started env
    else mbim_port_open_ready env

/-! ### MBIM broadband modem: first enabling step -/

/-- State of the `GSimpleAsyncResult` completed by the enabling_started
operation: the error stored in it (if any) and the boolean operation
result. -/
structure SimpleAsyncBoolResult where
  opError : Option GError
  opBool : Bool
deriving DecidableEq

/-- Embedding of `parent_enabling_started_ready`: when the parent finish
function reports a failure the error is only logged and freed (the source
comment says not to treat this as fatal), and in every case the async
result is set to boolean `TRUE` with no error stored. -/
def parent_enabling_started_ready (parentOutcome : Except GError Unit) :
    SimpleAsyncBoolResult :=
  match parentOutcome with
  | .error _ => { opError := none, opBool := true }
  | .ok _ => { opError := none, opBool := true }

/-- Embedding of `enabling_started`: it only forwards to the parent class
enabling_started with `parent_enabling_started_ready` as callback. -/
def enabling_started (parentOutcome : Except GError Unit) : SimpleAsyncBoolResult :=
  parent_enabling_started_ready parentOutcome

/-- Embedding of `enabling_started_finish`: it returns the negation of
`g_simple_async_result_propagate_error`, i.e. `FALSE` with the stored error
when one exists and `TRUE` with no error otherwise. -/
def enabling_started_finish (r : SimpleAsyncBoolResult) : Bool × Option GError :=
  match r.opError with
  | some e => (false, some e)
  | none => (true, none)

/-! ### Claim theorems -/

/-- Claim C1 (code_bug evidence): for a response without any
`+UPINCNT: p1,p2,p3,p4` line the parser is claimed to return `FALSE` with a
`MM_CORE_ERROR_FAILED` error and leave the outputs unset; because the local
`success` flag is initialised `TRUE` the code instead returns `TRUE`, sets
no error, and stores zeros into all four outputs.  A matching line is
decoded as claimed. -/
theorem upincnt_response_code_bug :
    mm_ublox_parse_upincnt_response ("AT+UPINCNT?") = (true, none, some (0, 0, 0, 0)) ∧
    mm_ublox_parse_upincnt_response ("") = (true, none, some (0, 0, 0, 0)) ∧
    mm_ublox_parse_upincnt_response ("+UPINCNT: 3,3,10,10") = (true, none, some (3, 3, 10, 10)) := by
  refine ⟨rfl, rfl, rfl⟩

/-- Claim C9 (code_bug evidence): values 1, 0, 4 and 19 are decoded to the
claimed power states, but for a matched value outside that set (here 2) and
for a non-matching response the function returns `FALSE` with `*error` left
unset — the `MM_CORE_ERROR_FAILED` error it builds is assigned to the local
`inner_error` and never propagated, contradicting the claim that a
`MM_CORE_ERROR_FAILED` error is set. -/
theorem cfun_response_code_bug :
    mm_ublox_parse_cfun_response ("+CFUN: 1") =
      (true, none, some MMModemPowerState.MM_MODEM_POWER_STATE_ON) ∧
    mm_ublox_parse_cfun_response ("+CFUN: 0") =
      (true, none, some MMModemPowerState.MM_MODEM_POWER_STATE_LOW) ∧
    mm_ublox_parse_cfun_response ("+CFUN: 4,0") =
      (true, none, some MMModemPowerState.MM_MODEM_POWER_STATE_LOW) ∧
    mm_ublox_parse_cfun_response ("+CFUN: 19") =
      (true, none, some MMModemPowerState.MM_MODEM_POWER_STATE_LOW) ∧
    mm_ublox_parse_cfun_response ("+CFUN: 2") = (false, none, none) ∧
    mm_ublox_parse_cfun_response ("garbage") = (false, none, none) := by
  refine ⟨rfl, rfl, rfl, rfl, rfl, rfl⟩

/-- Helper: every table entry reached through an in-range index is one of
the seven masks of `ublox_combinations`. -/
theorem combos_getD_mem_aux :
    ∀ v ∈ List.range 7, List.getD ublox_combinations v 0 ∈ ublox_combinations := by
  decide

/-- Helper: a single-AcT table entry that intersects another table entry is
contained in it. -/
theorem combos_single_subset_aux :
    ∀ v ∈ List.range 7, ∀ p ∈ List.range 7,
      mm_count_bits_set (List.getD ublox_combinations p 0) = 1 →
      (List.getD ublox_combinations v 0) &&& (List.getD ublox_combinations p 0) ≠ 0 →
      (List.getD ublox_combinations p 0) &&& (List.getD ublox_combinations v 0) =
        List.getD ublox_combinations p 0 := by
  decide

/-- Helper: every combination emitted by the building loops of
`mm_ublox_parse_urat_test_response` has an allowed mask from the table and
a preferred mask that is `MM_MODEM_MODE_NONE` or a single AcT contained in
the allowed mask. -/
theorem buildUratCombinations_mem_props (sel : List Nat) (pref : Option (List Nat))
    (c : MMModemModeCombination) (hc : c ∈ buildUratCombinations sel pref) :
    c.allowed ∈ ublox_combinations ∧
      (c.preferred = MM_MODEM_MODE_NONE ∨
        (mm_count_bits_set c.preferred = 1 ∧ c.preferred &&& c.allowed = c.preferred)) := by
  rw [buildUratCombinations, List.mem_flatMap] at hc
  obtain ⟨v, hv, hcv⟩ := hc
  rw [uratCombosForSelected.eq_def] at hcv
  split at hcv
  · exact absurd hcv (List.not_mem_nil c)
  · next h7 =>
    have hvr : v ∈ List.range 7 := List.mem_range.mpr (by omega)
    have hmem := combos_getD_mem_aux v hvr
    split at hcv
    · rcases List.mem_singleton.mp hcv with rfl
      exact ⟨hmem, Or.inl rfl⟩
    · split at hcv
      · rcases List.mem_singleton.mp hcv with rfl
        exact ⟨hmem, Or.inl rfl⟩
      · rcases List.mem_cons.mp hcv with rfl | hpc
        · exact ⟨hmem, Or.inl rfl⟩
        · rw [uratPreferredCombos, List.mem_filterMap] at hpc
          obtain ⟨p, hp, hpeq⟩ := hpc
          split at hpeq
          · exact absurd hpeq (by simp)
          · next hp7 =>
            split at hpeq
            · exact absurd hpeq (by simp)
            · next hp1 =>
              split at hpeq
              · exact absurd hpeq (by simp)
              · next hpand =>
                have hpr : p ∈ List.range 7 := List.mem_range.mpr (by omega)
                rcases Option.some_injective _ hpeq with rfl
                refine ⟨hmem, Or.inr ⟨not_ne_iff.mp hp1, ?_⟩⟩
                exact combos_single_subset_aux v hvr p hpr (not_ne_iff.mp hp1) hpand

/-- Helper: for every in-range selected value the combination with that
allowed mask and no preferred mode is emitted by the building loops. -/
theorem buildUratCombinations_mem_selected (sel : List Nat) (pref : Option (List Nat))
    (v : Nat) (hv : v ∈ sel) (h7 : v < 7) :
    (⟨List.getD ublox_combinations v 0, MM_MODEM_MODE_NONE⟩ : MMModemModeCombination) ∈
      buildUratCombinations sel pref := by
  rw [buildUratCombinations, List.mem_flatMap]
  refine ⟨v, hv, ?_⟩
  rw [uratCombosForSelected.eq_def, if_neg (by omega)]
  split
  · exact List.mem_singleton.mpr rfl
  · cases pref with
    | none => exact List.mem_singleton.mpr rfl
    | some prefs => exact List.mem_cons_self _ _

/-- Claim C2: whenever `mm_ublox_parse_urat_test_response` returns an array
(rather than `NULL`), the array is non-empty, every element has an allowed
mask from `ublox_combinations` and a preferred mask that is either
`MM_MODEM_MODE_NONE` or a single-mode mask contained in the allowed mask,
and for every in-range value of the selected group the combination with
that allowed mask and preferred `MM_MODEM_MODE_NONE` is included. -/
theorem urat_test_response_combinations_invariant (response : String)
    (arr : List MMModemModeCombination)
    (h : mm_ublox_parse_urat_test_response response = .ok arr) :
    arr ≠ [] ∧
      (∀ c ∈ arr, c.allowed ∈ ublox_combinations ∧
        (c.preferred = MM_MODEM_MODE_NONE ∨
          (mm_count_bits_set c.preferred = 1 ∧ c.preferred &&& c.allowed = c.preferred))) ∧
      (∀ v ∈ uratSelectedValues response, v < 7 →
        (⟨List.getD ublox_combinations v 0, MM_MODEM_MODE_NONE⟩ : MMModemModeCombination) ∈ arr) := by
  rw [mm_ublox_parse_urat_test_response] at h
  split at h
  · exact absurd h (by simp)
  · split at h
    · exact absurd h (by simp)
    · exact absurd h (by simp)
    · next selected hsel =>
      split at h
      · exact absurd h (by simp)
      · next preferred hpref =>
        split at h
        · exact absurd h (by simp)
        · next hlen =>
          rcases Except.ok.inj h with rfl
          have hselvals : uratSelectedValues response = selected := by
            rw [uratSelectedValues, hsel]
          refine ⟨?_, ?_, ?_⟩
          · intro hnil
            exact hlen (by rw [hnil]; rfl)
          · intro c hc
            exact buildUratCombinations_mem_props selected preferred c hc
          · intro v hvmem hv7
            rw [hselvals] at hvmem
            exact buildUratCombinations_mem_selected selected preferred v hvmem hv7

/-- Witness for claim C2, obtained by applying the invariant to the
concrete response `+URAT: (1),(0)`. -/
theorem urat_test_response_combinations_witness :
    ([⟨6, 0⟩, ⟨6, 2⟩] : List MMModemModeCombination) ≠ [] :=
  (urat_test_response_combinations_invariant ("+URAT: (1),(0)") [⟨6, 0⟩, ⟨6, 2⟩] (by decide)).1

/-- Claim C3 (code_bug evidence): the selection loop of
`mm_ublox_get_modem_mode_any` skips every combination whose preferred mode
is `MM_MODEM_MODE_NONE`, so on the array built from the valid response
`+URAT: (0)` — whose only combination has no preferred mode — the computed
mode is `MM_MODEM_MODE_NONE` and the assertion
`g_assert (any != MM_MODEM_MODE_NONE)` at the end of the function fails,
contradicting the claim (and the comment right above the assertion). -/
theorem modem_mode_any_assertion_code_bug :
    mm_ublox_parse_urat_test_response ("+URAT: (0)") =
      .ok [⟨MM_MODEM_MODE_2G, MM_MODEM_MODE_NONE⟩] ∧
    mm_ublox_get_modem_mode_any [⟨MM_MODEM_MODE_2G, MM_MODEM_MODE_NONE⟩] =
      MM_MODEM_MODE_NONE := by
  refine ⟨by decide, rfl⟩

/-- Claim C4 (counterexample to the claim as stated): the response
`+URAT: 0,4294967296` matches the pattern with a preferred field present
whose value is not in the range 0..6, yet the parser returns `TRUE` —
`mm_get_uint_from_match_info` rejects the 33-bit value, the preferred
handling is skipped as if the field were absent, and the call succeeds with
`MM_MODEM_MODE_NONE` as preferred instead of failing with
`MM_CORE_ERROR_FAILED`. -/
theorem urat_read_response_counterexample :
    regexSearch matchUratReadAt (String.data ("+URAT: 0,4294967296")) =
      some (0, some 4294967296) ∧
    ¬ (4294967296 : Nat) < 7 ∧
    mm_ublox_parse_urat_read_response ("+URAT: 0,4294967296") =
      (true, none, some (MM_MODEM_MODE_2G, MM_MODEM_MODE_NONE)) := by
  refine ⟨by decide, by decide, by decide⟩

/-- Claim C4 (amended): for every response in which the `+URAT:` pattern
matches with selected group `a` and optional preferred group `pOpt`, the
parser returns `TRUE` exactly under `uratReadOk` — `a` in range 0..6 and a
present preferred value either too large for a `guint` (then ignored) or in
range, a single AcT, and intersecting the allowed mask — in which case it
stores `ublox_combinations[a]` and `uratReadPreferred pOpt`; in every other
matched case it returns `FALSE`, propagates a `MM_CORE_ERROR_FAILED` error
and leaves the outputs unset. -/
theorem urat_read_response_spec (response : String) (a : Nat) (pOpt : Option Nat)
    (h : regexSearch matchUratReadAt response.data = some (a, pOpt)) :
    (uratReadOk a pOpt →
      mm_ublox_parse_urat_read_response response =
        (true, none, some (List.getD ublox_combinations a 0, uratReadPreferred pOpt))) ∧
    (¬ uratReadOk a pOpt →
      ∃ msg, mm_ublox_parse_urat_read_response response =
        (false, some ⟨MMCoreError.FAILED, msg⟩, none)) := by
  rw [mm_ublox_parse_urat_read_response, h]
  constructor
  · rintro ⟨ha7, hp⟩
    have haM : a ≤ G_MAXUINT := by simp only [G_MAXUINT]; omega
    have ha7n : ¬ 7 ≤ a := by omega
    cases pOpt with
    | none =>
      simp only [uratReadProcess, mm_get_uint_from_match_info, uratReadPreferred,
        if_pos haM, if_neg ha7n]
    | some p =>
      rcases hp with hbig | ⟨hp7, hp1, hpand⟩
      · have hpM : ¬ p ≤ G_MAXUINT := by omega
        simp only [uratReadProcess, mm_get_uint_from_match_info, uratReadPreferred,
          if_pos haM, if_neg ha7n, if_neg hpM, if_pos hbig]
      · have hpM : p ≤ G_MAXUINT := by simp only [G_MAXUINT]; omega
        have hbign : ¬ G_MAXUINT < p := by omega
        have hp7n : ¬ 7 ≤ p := by omega
        have hp1n : ¬ mm_count_bits_set (List.getD ublox_combinations p 0) ≠ 1 :=
          not_not_intro hp1
        simp only [uratReadProcess, mm_get_uint_from_match_info, uratReadPreferred,
          if_pos haM, if_neg ha7n, if_pos hpM, if_neg hp7n, if_neg hp1n, if_neg hpand,
          if_neg hbign]
  · intro hnok
    by_cases ha7 : a < 7
    · have haM : a ≤ G_MAXUINT := by simp only [G_MAXUINT]; omega
      have ha7n : ¬ 7 ≤ a := by omega
      cases pOpt with
      | none => exact absurd ⟨ha7, trivial⟩ hnok
      | some p =>
        by_cases hbig : G_MAXUINT < p
        · exact absurd ⟨ha7, Or.inl hbig⟩ hnok
        · have hpM : p ≤ G_MAXUINT := by omega
          by_cases hp7 : 7 ≤ p
          · refine ⟨"Unexpected AcT preferred value", ?_⟩
            simp only [uratReadProcess, mm_get_uint_from_match_info,
              if_pos haM, if_neg ha7n, if_pos hpM, if_pos hp7]
          · by_cases hp1 : mm_count_bits_set (List.getD ublox_combinations p 0) = 1
            · by_cases hpand :
                  (List.getD ublox_combinations a 0) &&& (List.getD ublox_combinations p 0) = 0
              · refine ⟨"AcT preferred value not a subset of the allowed value", ?_⟩
                simp only [uratReadProcess, mm_get_uint_from_match_info,
                  if_pos haM, if_neg ha7n, if_pos hpM, if_neg hp7,
                  if_neg (not_not_intro hp1), if_pos hpand]
              · exact absurd ⟨ha7, Or.inr ⟨by omega, hp1, hpand⟩⟩ hnok
            · refine ⟨"AcT preferred value should be a single AcT", ?_⟩
              simp only [uratReadProcess, mm_get_uint_from_match_info,
                if_pos haM, if_neg ha7n, if_pos hpM, if_neg hp7, if_pos hp1]
    · rcases le_or_lt a G_MAXUINT with hle | hgt
      · refine ⟨"Unexpected AcT selected value", ?_⟩
        simp only [uratReadProcess, mm_get_uint_from_match_info,
          if_pos hle, if_pos (by omega : 7 ≤ a)]
      · refine ⟨"Could not read AcT selected value", ?_⟩
        simp only [uratReadProcess, mm_get_uint_from_match_info,
          if_neg (by omega : ¬ a ≤ G_MAXUINT)]

/-- Witness for claim C4, applying the amended specification to the
concrete response `+URAT: 1,2`. -/
theorem urat_read_response_witness :
    mm_ublox_parse_urat_read_response ("+URAT: 1,2") = (true, none, some (6, 4)) :=
  (urat_read_response_spec ("+URAT: 1,2") 1 (some 2) (by decide)).1
    ⟨by omega, Or.inr (by decide)⟩

/-- Claim C5: for every allowed mask appearing in `ublox_combinations` and
every preferred mask that is `MM_MODEM_MODE_NONE` or a single-mode mask of
the table contained in the allowed mask, `mm_ublox_build_urat_set_command`
succeeds with `+URAT=i` (resp. `+URAT=i,j`) where the table entries at `i`
and `j` are the allowed and preferred masks, and parsing the corresponding
`+URAT: i` (resp. `+URAT: i,j`) read response recovers exactly the pair
(allowed, preferred). -/
theorem urat_build_parse_round_trip (allowed preferred : Nat)
    (hA : allowed ∈ ublox_combinations)
    (hP : preferred = MM_MODEM_MODE_NONE ∨
          (preferred ∈ ublox_combinations ∧ mm_count_bits_set preferred = 1 ∧
           preferred &&& allowed = preferred)) :
    ∃ i ∈ List.range 7, List.getD ublox_combinations i 0 = allowed ∧
      ((preferred = MM_MODEM_MODE_NONE ∧
         mm_ublox_build_urat_set_command allowed preferred = .ok ("+URAT=" ++ Nat.repr i) ∧
         mm_ublox_parse_urat_read_response ("+URAT: " ++ Nat.repr i) =
           (true, none, some (allowed, preferred))) ∨
       (∃ j ∈ List.range 7, List.getD ublox_combinations j 0 = preferred ∧
         mm_ublox_build_urat_set_command allowed preferred =
           .ok ("+URAT=" ++ Nat.repr i ++ "," ++ Nat.repr j) ∧
         mm_ublox_parse_urat_read_response ("+URAT: " ++ Nat.repr i ++ "," ++ Nat.repr j) =
           (true, none, some (allowed, preferred)))) := by
  rw [show ublox_combinations = [2, 6, 4, 8, 14, 10, 12] from rfl] at hA
  rcases hP with rfl | ⟨hPmem, hP1, hPand⟩
  · fin_cases hA <;> decide
  · rw [show ublox_combinations = [2, 6, 4, 8, 14, 10, 12] from rfl] at hPmem
    fin_cases hA <;> fin_cases hPmem <;>
      first
        | exact absurd hP1 (by decide)
        | exact absurd hPand (by decide)
        | decide

/-- Witness for claim C5, applying the round-trip property to the concrete
pair allowed = 2G|3G, preferred = 2G. -/
theorem urat_build_parse_round_trip_witness :
    mm_ublox_build_urat_set_command 6 2 ≠
      .error ⟨MMCoreError.FAILED, "No AcT value matches requested mode"⟩ := by
  obtain ⟨i, hi, hgi, hc⟩ := urat_build_parse_round_trip 6 2 (by decide) (Or.inr (by decide))
  rcases hc with ⟨h0, hb, hp⟩ | ⟨j, hj, hgj, hb, hp⟩
  · exact absurd h0 (by decide)
  · rw [hb]
    simp

/-- Helper: the embedded per-model table computes exactly the masks the
claim describes. -/
theorem supported_modes_matches_claimed (m : String) :
    supported_modes_per_model (some m) = claimed_model_mask m := by
  simp only [supported_modes_per_model, claimed_model_mask]
  split_ifs <;> rfl

/-- Claim C6: `mm_ublox_filter_supported_modes` returns its input unchanged
when no model is given or when the per-model mask of the table equals
2G|3G|4G; otherwise it keeps exactly the combinations compatible with the
per-model mask, returning a `MM_CORE_ERROR_FAILED` error when none
survives. -/
theorem filter_supported_modes_spec (model : Option String)
    (combinations : List MMModemModeCombination) :
    (model = none → mm_ublox_filter_supported_modes model combinations = .ok combinations) ∧
    (∀ m, model = some m →
      claimed_model_mask m = MM_MODEM_MODE_2G ||| MM_MODEM_MODE_3G ||| MM_MODEM_MODE_4G →
      mm_ublox_filter_supported_modes model combinations = .ok combinations) ∧
    (∀ m, model = some m →
      claimed_model_mask m ≠ MM_MODEM_MODE_2G ||| MM_MODEM_MODE_3G ||| MM_MODEM_MODE_4G →
      ((combinations.filter (modeComboSupported (claimed_model_mask m)) ≠ [] →
          mm_ublox_filter_supported_modes model combinations =
            .ok (combinations.filter (modeComboSupported (claimed_model_mask m)))) ∧
       (combinations.filter (modeComboSupported (claimed_model_mask m)) = [] →
          mm_ublox_filter_supported_modes model combinations =
            .error ⟨MMCoreError.FAILED, "No valid mode combinations built after filtering"⟩))) := by
  refine ⟨?_, ?_, ?_⟩
  · rintro rfl
    rfl
  · rintro m rfl hall
    have hcond : supported_modes_per_model (some m) = supported_modes_per_model none := by
      rw [supported_modes_matches_claimed, hall]
      rfl
    simp only [mm_ublox_filter_supported_modes, if_pos hcond]
  · rintro m rfl hne
    have hcond : ¬ supported_modes_per_model (some m) = supported_modes_per_model none := by
      rw [supported_modes_matches_claimed]
      intro hc
      exact hne hc
    have hcond2 : ¬ claimed_model_mask m = supported_modes_per_model none := hne
    constructor
    · intro hfil
      have hlen2 : ¬ (List.filter (modeComboSupported (claimed_model_mask m))
          combinations).length = 0 := by
        intro h0
        exact hfil (List.length_eq_zero.mp h0)
      simp only [mm_ublox_filter_supported_modes, mm_filter_supported_modes,
        supported_modes_matches_claimed, if_neg hcond2, if_neg hlen2]
    · intro hfil
      have hlen2 : (List.filter (modeComboSupported (claimed_model_mask m))
          combinations).length = 0 := List.length_eq_zero.mpr hfil
      simp only [mm_ublox_filter_supported_modes, mm_filter_supported_modes,
        supported_modes_matches_claimed, if_neg hcond2, if_pos hlen2]

/-- Witness for claim C6: for model TOBY-L201 (2G removed) the 2G-only
combination is filtered out while the 3G|4G combination survives. -/
theorem filter_supported_modes_witness :
    mm_ublox_filter_supported_modes (some ("TOBY-L201"))
      [⟨12, 0⟩, ⟨2, 0⟩] = .ok [⟨12, 0⟩] := by
  have h := ((filter_supported_modes_spec (some ("TOBY-L201")) [⟨12, 0⟩, ⟨2, 0⟩]).2.2
    ("TOBY-L201") rfl (by decide)).1 (by decide)
  exact h

/-- Claim C7: the MBIM modem initialization_started operation fails with a
`MM_CORE_ERROR_FAILED` "MBIM port went missing" completion when no MBIM
port is available; when the port is closed it opens it and completes with
the open error on failure; once the port is open (or was already open) it
forwards to the parent initialization, whose failure is not fatal — the
operation completes successfully with the parent context pointer. -/
theorem initialization_started_spec (env : MbimInitEnv) :
    (env.mbimPort = none →
      initialization_started env =
        .error ⟨MMCoreError.FAILED, "Cannot initialize: MBIM port went missing"⟩) ∧
    (∀ e, env.mbimPort = some false → env.openResult = some e →
      initialization_started env = .error e) ∧
    ((env.mbimPort = some true ∨ (env.mbimPort = some false ∧ env.openResult = none)) →
      initialization_started env = .ok env.parentCtx) := by
  refine ⟨?_, ?_, ?_⟩
  · intro h
    simp [initialization_started, h]
  · intro e h1 h2
    simp [initialization_started, mbim_port_open_ready, h1, h2]
  · rintro (h1 | ⟨h1, h2⟩)
    · simp [initialization_started, parent_initialization_started, h1]
    · simp [initialization_started, mbim_port_open_ready, parent_initialization_started, h1, h2]

/-- Witness for claim C7: with the MBIM port missing the operation
completes with the claimed error. -/
theorem initialization_started_witness :
    initialization_started ⟨none, none, none, none⟩ =
      .error ⟨MMCoreError.FAILED, "Cannot initialize: MBIM port went missing"⟩ :=
  (initialization_started_spec ⟨none, none, none, none⟩).1 rfl

/-- Claim C8 (counterexample to the claim as stated): when the parent
enabling fails, `enabling_started_finish` does not propagate the failure —
it reports `TRUE` with no error, not `FALSE` with the parent error. -/
theorem enabling_started_counterexample :
    enabling_started_finish (enabling_started
      (.error ⟨MMCoreError.FAILED, "Could not grab primary AT port"⟩)) = (true, none) ∧
    ((true, none) : Bool × Option GError) ≠
      (false, some ⟨MMCoreError.FAILED, "Could not grab primary AT port"⟩) := by
  exact ⟨rfl, by decide⟩

/-- Claim C8 (amended): enabling_started is a continuation into the parent
class enabling_started, but a parent failure is not treated as fatal: the
parent error is logged and discarded, and `enabling_started_finish` reports
success (`TRUE`, no error) for every outcome of the parent operation. -/
theorem enabling_started_not_fatal (parentOutcome : Except GError Unit) :
    enabling_started_finish (enabling_started parentOutcome) = (true, none) := by
  cases parentOutcome <;> rfl

/-- Claim C10: when `mm_ublox_parse_uipaddr_response` returns `FALSE` none
of the six caller locations has been written; when it returns `TRUE` a
location has been written exactly when its out pointer was non-`NULL`, the
written interface name is never `NULL`, and the four written address
strings may or may not be `NULL`. -/
theorem uipaddr_response_error_atomicity (response : String) (ptrs : UipaddrPtrs) :
    ((mm_ublox_parse_uipaddr_response response ptrs).1 = false →
      (mm_ublox_parse_uipaddr_response response ptrs).2.2 = uipaddrNoWrites) ∧
    ((mm_ublox_parse_uipaddr_response response ptrs).1 = true →
      ((mm_ublox_parse_uipaddr_response response ptrs).2.2.cid.isSome = ptrs.outCid ∧
       (mm_ublox_parse_uipaddr_response response ptrs).2.2.ifName.isSome = ptrs.outIfName ∧
       (mm_ublox_parse_uipaddr_response response ptrs).2.2.ipv4Address.isSome =
         ptrs.outIpv4Address ∧
       (mm_ublox_parse_uipaddr_response response ptrs).2.2.ipv4Subnet.isSome =
         ptrs.outIpv4Subnet ∧
       (mm_ublox_parse_uipaddr_response response ptrs).2.2.ipv6GlobalAddress.isSome =
         ptrs.outIpv6GlobalAddress ∧
       (mm_ublox_parse_uipaddr_response response ptrs).2.2.ipv6LinkLocalAddress.isSome =
         ptrs.outIpv6LinkLocalAddress ∧
       (mm_ublox_parse_uipaddr_response response ptrs).2.2.ifName ≠ some none)) := by
  simp only [mm_ublox_parse_uipaddr_response]
  split
  · exact ⟨fun _ => rfl, fun h => by simp at h⟩
  · split
    · exact ⟨fun _ => rfl, fun h => by simp at h⟩
    · split
      · exact ⟨fun _ => rfl, fun h => by simp at h⟩
      · next ifn hif =>
        refine ⟨fun h => by simp at h, fun _ => ?_⟩
        refine ⟨?_, ?_, ?_, ?_, ?_, ?_, ?_⟩
        · cases hb : ptrs.outCid <;> simp [hb]
        · cases hb : ptrs.outIfName <;> simp [hb]
        · cases hb : ptrs.outIpv4Address <;> simp [hb]
        · cases hb : ptrs.outIpv4Subnet <;> simp [hb]
        · cases hb : ptrs.outIpv6GlobalAddress <;> simp [hb]
        · cases hb : ptrs.outIpv6LinkLocalAddress <;> simp [hb]
        · by_cases hb : ptrs.outIfName = true
          · rw [uipaddrIfNameStep, if_pos hb] at hif
            split at hif
            · rcases Except.ok.inj hif with rfl
              simp [hb]
            · exact absurd hif (by simp)
          · simp [hb]

/-- Witness for claim C10: a non-matching response returns without writing
any of the caller locations. -/
theorem uipaddr_response_error_atomicity_witness :
    (mm_ublox_parse_uipaddr_response ("AT") ⟨true, true, true, true, true, true⟩).2.2 =
      uipaddrNoWrites :=
  (uipaddr_response_error_atomicity ("AT") ⟨true, true, true, true, true, true⟩).1 rfl
